import Mathlib

/-!
Shallow embedding of the TruthLens verification pipeline
(`verification_engine.py`, `llm_interface.py`, `search_module.py`).

Python dictionaries with possibly-missing keys are modelled as structures
with `Option` fields; `dict.get(key, default)` becomes `Option.getD`.
Python strings whose character-level content matters (answers, questions,
queries) are modelled as `List Char`; strings used only as opaque keys
(urls, status tags, titles) are modelled as `String`.
External effects (model calls, web search, JSON parsing of model output)
are passed in as explicit oracle values: a transport failure is `Except.error`,
an unparseable verifier response is `Except.ok none`.
-/

/-- A search-result / source record: a Python dict with keys
`title`, `snippet`, `url`; `url` may be absent (`source.get('url', '')`). -/
structure Source where
  title : String
  snippet : String
  url : Option String
deriving DecidableEq, Repr

/-- `source.get('url', '')` from `_deduplicate_sources`. -/
def getUrl (s : Source) : String := s.url.getD ""

/-- One claim entry of a verification result: dict with keys
`text`, `status`, `reason`, `sources`; `status` may be absent
(`claim.get('status', 'uncertain')`). -/
structure VClaim where
  text : List Char
  status : Option String
  reason : String
  srcs : List String
deriving DecidableEq, Repr

/-- A verification result: dict with keys `overall_confidence` and `claims`,
either of which may be absent (`verification.get('overall_confidence', 50)`,
`verification.get('claims', [])`). -/
structure Verification where
  overall_confidence : Option Int
  claims : Option (List VClaim)
deriving DecidableEq, Repr

/-- The `status_counts` dict initialised in `calculate_hallucination_risk`:
five fixed keys, each starting at 0. -/
structure StatusCounts where
  verified : Nat
  uncertain : Nat
  outdated : Nat
  unsupported : Nat
  contradicted : Nat
deriving DecidableEq, Repr

def initCounts : StatusCounts := ⟨0, 0, 0, 0, 0⟩

/-- `if status in status_counts: status_counts[status] += 1` —
a status outside the five fixed keys leaves the counts unchanged. -/
def bumpStatus (sc : StatusCounts) (status : String) : StatusCounts :=
  if status = "verified" then { sc with verified := sc.verified + 1 }
  else if status = "uncertain" then { sc with uncertain := sc.uncertain + 1 }
  else if status = "outdated" then { sc with outdated := sc.outdated + 1 }
  else if status = "unsupported" then { sc with unsupported := sc.unsupported + 1 }
  else if status = "contradicted" then { sc with contradicted := sc.contradicted + 1 }
  else sc

/-- The tally loop of `calculate_hallucination_risk`:
`for claim in claims: status = claim.get('status', 'uncertain'); ...`. -/
def tallyStatuses (claims : List VClaim) : StatusCounts :=
  claims.foldl (fun sc c => bumpStatus sc (c.status.getD "uncertain")) initCounts

def sumCounts (sc : StatusCounts) : Nat :=
  sc.verified + sc.uncertain + sc.outdated + sc.unsupported + sc.contradicted

/-- Result dict of `calculate_hallucination_risk`. -/
structure RiskAssessment where
  confidence : Int
  risk_level : String
  risk_color : String
  risk_emoji : String
  risk_message : String
  status_counts : StatusCounts
  total_claims : Nat
deriving DecidableEq, Repr

/-- `VerificationEngine.calculate_hallucination_risk`. -/
def calculate_hallucination_risk (verification : Verification) : RiskAssessment :=
  let confidence := verification.overall_confidence.getD 50
  let claims := verification.claims.getD []
  let status_counts := tallyStatuses claims
  if confidence ≥ 80 then
    { confidence := confidence, risk_level := "low", risk_color := "green",
      risk_emoji := "✅",
      risk_message := "High confidence - Claims are well-supported",
      status_counts := status_counts, total_claims := claims.length }
  else if confidence ≥ 50 then
    { confidence := confidence, risk_level := "medium", risk_color := "yellow",
      risk_emoji := "⚠️",
      risk_message := "Medium confidence - Some claims need verification",
      status_counts := status_counts, total_claims := claims.length }
  else
    { confidence := confidence, risk_level := "high", risk_color := "red",
      risk_emoji := "❌",
      risk_message := "Low confidence - Multiple unsupported claims",
      status_counts := status_counts, total_claims := claims.length }

/-- `VerificationEngine._deduplicate_sources`, with the `seen_urls` set made
explicit as a list of urls already emitted. -/
def dedupAux (seen : List String) : List Source → List Source
  | [] => []
  | s :: rest =>
    let u := getUrl s
    if u ≠ "" ∧ u ∉ seen then s :: dedupAux (u :: seen) rest
    else dedupAux seen rest

def deduplicate_sources (sources : List Source) : List Source :=
  dedupAux [] sources

/-! ## Search module (`search_module.py`) -/

/-- A raw DuckDuckGo result dict (keys `title`, `body`, `href`, any may be
absent: `result.get('title', '')` etc.). -/
structure DdgResult where
  title : Option String
  body : Option String
  href : Option String
deriving DecidableEq, Repr

/-- A raw SerpAPI organic result dict (keys `title`, `snippet`, `link`). -/
structure SerpResult where
  title : Option String
  snippet : Option String
  link : Option String
deriving DecidableEq, Repr

/-- `SearchModule._search_duckduckgo`: the provider call `ddgs.text(...)` is an
oracle; on a provider exception the accumulated `results` list (empty, since
the call itself failed) is returned. -/
def search_duckduckgo (providerCall : Except String (List DdgResult)) : List Source :=
  match providerCall with
  | .error _ => []
  | .ok rs =>
    rs.map (fun r =>
      { title := r.title.getD "", snippet := r.body.getD "", url := some (r.href.getD "") })

/-- `SearchModule._search_serpapi`: the HTTP round-trip and JSON decode are an
oracle yielding the `organic_results` list; on any exception `[]` is returned;
otherwise the first `max_results` entries are mapped to sources. -/
def search_serpapi (providerCall : Except String (List SerpResult))
    (max_results : Nat) : List Source :=
  match providerCall with
  | .error _ => []
  | .ok organic =>
    (organic.take max_results).map (fun r =>
      { title := r.title.getD "", snippet := r.snippet.getD "", url := some (r.link.getD "") })

inductive SearchProvider
  | duckduckgo
  | serpapi
deriving DecidableEq, Repr

/-- The outcome of one provider backend call, dispatched on the configured
provider (the constructor rejects any other provider). -/
inductive ProviderCall
  | ddg (call : Except String (List DdgResult))
  | serp (call : Except String (List SerpResult))
deriving Repr

/-- `SearchModule.search`: dispatch to the provider inside a `try` whose
`except` clause returns `[]`, so a transport or provider error never
propagates. When the caller passes no `max_results`, the code substitutes
`Config.MAX_SEARCH_RESULTS = 3`; the engine always calls it that way, so the
embedding takes the resolved count as an argument. -/
def search (providerCall : ProviderCall) (max_results : Nat) : List Source :=
  match providerCall with
  | .ddg call => search_duckduckgo call
  | .serp call => search_serpapi call max_results

/-- Python `str.replace(pat, rep)` on `List Char` (replace every
non-overlapping occurrence, left to right). The fuel argument is the length
of the subject string, which suffices because every step of the loop consumes
at least one character (all patterns used by the code are non-empty). -/
def pyReplaceAux (pat rep : List Char) : Nat → List Char → List Char
  | 0, s => s
  | fuel + 1, s =>
    if pat ≠ [] ∧ pat.isPrefixOf s then
      rep ++ pyReplaceAux pat rep fuel (s.drop pat.length)
    else
      match s with
      | [] => []
      | c :: rest => c :: pyReplaceAux pat rep fuel rest

def pyReplace (s pat rep : List Char) : List Char :=
  pyReplaceAux pat rep s.length s

/-- Python `str.strip()` on `List Char`. -/
def pyStrip (s : List Char) : List Char :=
  ((s.dropWhile Char.isWhitespace).reverse.dropWhile Char.isWhitespace).reverse

/-- `SearchModule.generate_search_queries`: query 1 is the raw question,
query 2 appends year tokens, query 3 is a keyword extraction appended only
when longer than 10 characters; `queries[:2]` keeps the first two. -/
def generate_search_queries (question answer : List Char) : List (List Char) :=
  let queries := [question, question ++ " 2024 2025".toList]
  let key_terms :=
    pyReplace
      (pyReplace
        (pyReplace
          (pyReplace question "?".toList [])
          "how to".toList [])
        "what is".toList [])
      "best practices".toList "guide".toList
  let queries :=
    if key_terms.length > 10 then queries ++ [pyStrip key_terms] else queries
  queries.take 2

/-! ## LLM interface (`llm_interface.py`) -/

/-- `LLMInterface._create_fallback_verification`. -/
def create_fallback_verification (answer : List Char) : Verification :=
  { overall_confidence := some 50,
    claims := some [
      { text := if answer.length > 200 then answer.take 200 ++ "...".toList else answer,
        status := some "uncertain",
        reason := "Verification system encountered an error",
        srcs := [] }] }

/-- `LLMInterface.generate_answer`: the chat-completion round trip is an
oracle yielding the (already stripped) answer text or a transport error;
any error is re-raised as `Exception("Error generating answer: ...")`. -/
def generate_answer (modelCall : Except String (List Char)) : Except String (List Char) :=
  match modelCall with
  | .ok answer_text => .ok answer_text
  | .error e => .error ("Error generating answer: " ++ e)

/-- A value produced by a successful `json.loads` of the verifier response.
`json.loads` validates only JSON syntax, not the required structure:
- `obj v`: a JSON object; its two relevant keys are modelled by
  `Verification` (a key that is absent — or whose value a later
  `.get(key, default)` would not see — appears as `none`). This includes
  well-formed objects missing both keys.
- `nonObj tag`: a JSON value that is not an object (array, string, number,
  boolean or null; `tag` records which). It has no `.get` method, so any
  later dictionary access on it raises. -/
inductive ParsedJson
  | obj (v : Verification)
  | nonObj (tag : String)
deriving DecidableEq, Repr

/-- `LLMInterface.verify_claims`: the chat-completion round trip plus
`json.loads` is an oracle; `.error e` is a transport/auth error (re-raised as
`Exception("Error verifying claims: ...")`), `.ok none` is a
`json.JSONDecodeError` (soft-failed to the fallback verification), and
`.ok (some j)` is whatever JSON value `json.loads` produced — returned
as-is, with no check that it has the required structure. -/
def verify_claims (answer : List Char)
    (modelCall : Except String (Option ParsedJson)) : Except String ParsedJson :=
  match modelCall with
  | .error e => .error ("Error verifying claims: " ++ e)
  | .ok none => .ok (.obj (create_fallback_verification answer))
  | .ok (some j) => .ok j

/-- The `enumerate(self._last_citations, 1)` loop of
`convert_citations_to_sources`, with the running index explicit. -/
def convertCitationsAux (i : Nat) : List String → List Source
  | [] => []
  | url :: rest =>
    { title := "Source " ++ toString i, snippet := "", url := some url } ::
      convertCitationsAux (i + 1) rest

/-- `LLMInterface.convert_citations_to_sources`: each retained citation URL
becomes a source with synthesized title `Source i` (1-based) and empty
snippet. -/
def convert_citations_to_sources (citations : List String) : List Source :=
  convertCitationsAux 1 citations

/-! ## Engine pipelines (`verification_engine.py`) -/

/-- The merge loop over completed search futures: a future that raised
(timeout or search failure) is caught and contributes nothing, a future that
returned results extends `all_sources`. The outcomes are listed in completion
order. -/
def mergeSearchResults (outcomes : List (Except String (List Source))) : List Source :=
  outcomes.foldl
    (fun acc o => match o with | .ok results => acc ++ results | .error _ => acc) []

/-- The shared source-aggregation step of `generate_and_verify` and
`verify_existing_answer`: merge search results; if (and only if) the merged
list is empty, extend it with the converted Perplexity citations when those
are non-empty; then deduplicate by URL. -/
def computeSources (outcomes : List (Except String (List Source)))
    (citations : List String) : List Source :=
  let all_sources := mergeSearchResults outcomes
  let all_sources :=
    if all_sources.length = 0 then
      let perplexity_sources := convert_citations_to_sources citations
      if perplexity_sources ≠ [] then all_sources ++ perplexity_sources else all_sources
    else all_sources
  deduplicate_sources all_sources

/-- Everything external to one `generate_and_verify` run: the answer-model
call, the per-query search outcomes (in completion order), the citations the
answer generator retained, and the verifier-model call. -/
structure EngineOracle where
  genAnswer : Except String (List Char)
  searchOutcomes : List (Except String (List Source))
  citations : List String
  verifyResponse : Except String (Option ParsedJson)

/-- The result bundle of a pipeline run. The `verification` entry is whatever
`verify_claims` returned (no shape check is performed on it before it is
stored). -/
structure Bundle where
  question : List Char
  answer : List Char
  verification : ParsedJson
  sources : List Source
  search_queries : List (List Char)

/-- `VerificationEngine.generate_and_verify`: an uncaught exception anywhere
aborts the run (`Except.error`), otherwise the compiled bundle is returned.
After `verify_claims` returns, the code evaluates
`verification.get('claims', [])` (for the progress print), which raises an
`AttributeError` when the verifier response parsed to a non-object JSON
value; that exception propagates. -/
def generate_and_verify (question : List Char) (oracle : EngineOracle) :
    Except String Bundle :=
  match generate_answer oracle.genAnswer with
  | .error e => .error e
  | .ok answer =>
    let search_queries := generate_search_queries question answer
    let unique_sources := computeSources oracle.searchOutcomes oracle.citations
    match verify_claims answer oracle.verifyResponse with
    | .error e => .error e
    | .ok verification =>
      match verification with
      | .nonObj tag =>
        .error ("AttributeError: " ++ tag ++ " object has no attribute get")
      | .obj _ =>
        .ok { question := question, answer := answer, verification := verification,
              sources := unique_sources, search_queries := search_queries }

/-- `VerificationEngine.verify_existing_answer`: same pipeline without the
answer-generation step, and without the progress print, so the raw
`verify_claims` result is stored in the bundle unexamined. -/
def verify_existing_answer (question answer : List Char) (oracle : EngineOracle) :
    Except String Bundle :=
  let search_queries := generate_search_queries question answer
  let unique_sources := computeSources oracle.searchOutcomes oracle.citations
  match verify_claims answer oracle.verifyResponse with
  | .error e => .error e
  | .ok verification =>
    .ok { question := question, answer := answer, verification := verification,
          sources := unique_sources, search_queries := search_queries }

/-- The set of status values recognised by the `status_counts` tally
(the five keys of the initial dict). Stated from the spec side, for
comparison with the tally translated from the code. -/
def isKnownStatus (status : String) : Prop :=
  status = "verified" ∨ status = "uncertain" ∨ status = "outdated" ∨
  status = "unsupported" ∨ status = "contradicted"

instance (status : String) : Decidable (isKnownStatus status) := by
  unfold isKnownStatus
  infer_instance

/-! ## Helper lemmas -/

theorem risk_projections (v : Verification) :
    (calculate_hallucination_risk v).status_counts = tallyStatuses (v.claims.getD []) ∧
    (calculate_hallucination_risk v).total_claims = (v.claims.getD []).length ∧
    (calculate_hallucination_risk v).confidence = v.overall_confidence.getD 50 := by
  unfold calculate_hallucination_risk
  dsimp only
  split_ifs <;> exact ⟨rfl, rfl, rfl⟩

theorem sumCounts_bump (sc : StatusCounts) (s : String) :
    sumCounts (bumpStatus sc s) = sumCounts sc + (if isKnownStatus s then 1 else 0) := by
  unfold bumpStatus isKnownStatus sumCounts
  split_ifs <;> simp_all <;> omega

theorem sumCounts_foldl_bump (l : List VClaim) :
    ∀ sc : StatusCounts,
      sumCounts (l.foldl (fun acc c => bumpStatus acc (c.status.getD "uncertain")) sc) =
        sumCounts sc + l.countP (fun c => decide (isKnownStatus (c.status.getD "uncertain"))) := by
  induction l with
  | nil => intro sc; simp
  | cons c t ih =>
    intro sc
    rw [List.foldl_cons, ih, sumCounts_bump, List.countP_cons]
    by_cases h : isKnownStatus (c.status.getD "uncertain")
    · simp [h]; try omega
    · simp [h]; try omega

theorem foldl_bump_congr (l₁ : List VClaim) :
    ∀ (l₂ : List VClaim) (sc : StatusCounts),
      l₁.map VClaim.status = l₂.map VClaim.status →
      l₁.foldl (fun acc c => bumpStatus acc (c.status.getD "uncertain")) sc =
        l₂.foldl (fun acc c => bumpStatus acc (c.status.getD "uncertain")) sc := by
  induction l₁ with
  | nil =>
    intro l₂ sc h
    cases l₂ with
    | nil => rfl
    | cons c2 t2 => simp at h
  | cons c t ih =>
    intro l₂ sc h
    cases l₂ with
    | nil => simp at h
    | cons c2 t2 =>
      simp only [List.map_cons, List.cons.injEq] at h
      rw [List.foldl_cons, List.foldl_cons, h.1]
      exact ih t2 _ h.2

/-! ## Claim C1 -/

/-- Claim C1, counterexample: a Verification with one claim whose `status`
is present but unrecognised (`"bogus"`) has `status_counts` summing to 0
while `total_claims = len(claims) = 1`, so the sum of `status_counts` does
not equal `len(claims)`. -/
theorem status_counts_sum_cex :
    sumCounts (calculate_hallucination_risk
        ⟨some 90, some [⟨[], some "bogus", "", []⟩]⟩).status_counts = 0 ∧
    (calculate_hallucination_risk
        ⟨some 90, some [⟨[], some "bogus", "", []⟩]⟩).total_claims = 1 :=
  ⟨by decide, by decide⟩

/-- Claim C1 (amended): the values of `status_counts` sum to the number of
claims whose effective status (the `status` value, defaulting to
`"uncertain"` when the key is missing) is one of the five recognised kinds;
a claim whose `status` is present but unrecognised is dropped from the
tally, so the sum can fall short of `len(claims)`. -/
theorem status_counts_sum (v : Verification) :
    sumCounts (calculate_hallucination_risk v).status_counts =
      (v.claims.getD []).countP
        (fun c => decide (isKnownStatus (c.status.getD "uncertain"))) := by
  rw [(risk_projections v).1]
  unfold tallyStatuses
  rw [sumCounts_foldl_bump]
  simp [initCounts, sumCounts]

/-! ## Claim C4 -/

/-- Claim C4: `calculate_hallucination_risk` assigns risk level `low`
exactly when the (effective) overall confidence is at least 80, `medium`
exactly when it lies in [50, 80), and `high` exactly when it is below 50. -/
theorem risk_level_thresholds (v : Verification) :
    ((calculate_hallucination_risk v).risk_level = "low" ↔
      80 ≤ v.overall_confidence.getD 50) ∧
    ((calculate_hallucination_risk v).risk_level = "medium" ↔
      50 ≤ v.overall_confidence.getD 50 ∧ v.overall_confidence.getD 50 < 80) ∧
    ((calculate_hallucination_risk v).risk_level = "high" ↔
      v.overall_confidence.getD 50 < 50) := by
  unfold calculate_hallucination_risk
  dsimp only
  split_ifs with h1 h2 <;> refine ⟨?_, ?_, ?_⟩ <;> simp <;> omega

/-! ## Claim C8 -/

/-- Claim C8: `calculate_hallucination_risk` is a pure function of its
Verification argument — its result is fully determined by the overall
confidence and the claims' statuses, so two calls on equal inputs (even
inputs differing in fields the function never reads) return identical
RiskAssessments, with no external effects and no mutation of the input. -/
theorem risk_deterministic (v₁ v₂ : Verification)
    (hconf : v₁.overall_confidence = v₂.overall_confidence)
    (hst : (v₁.claims.getD []).map VClaim.status =
      (v₂.claims.getD []).map VClaim.status) :
    calculate_hallucination_risk v₁ = calculate_hallucination_risk v₂ := by
  have hlen : (v₁.claims.getD []).length = (v₂.claims.getD []).length := by
    simpa using congrArg List.length hst
  have htally : tallyStatuses (v₁.claims.getD []) = tallyStatuses (v₂.claims.getD []) :=
    foldl_bump_congr _ _ _ hst
  unfold tallyStatuses at htally
  simp only [calculate_hallucination_risk, tallyStatuses]
  rw [hconf, htally, hlen]

/-- Claim C8, witness: two Verifications that differ in claim texts,
reasons and cited sources (fields the function never reads) yield the
identical RiskAssessment. -/
theorem risk_deterministic_witness :
    calculate_hallucination_risk ⟨some 90, some [⟨['a'], some "verified", "r1", []⟩]⟩ =
      calculate_hallucination_risk ⟨some 90, some [⟨['b'], some "verified", "r2", ["x"]⟩]⟩ :=
  risk_deterministic _ _ rfl rfl

/-! ## Claim C10 -/

/-- Claim C10: `calculate_hallucination_risk` tolerates missing fields:
with no `overall_confidence` key the effective confidence is 50 (risk level
`medium`), and a claim with no `status` key is tallied under `uncertain`. -/
theorem risk_missing_defaults (v : Verification) (hconf : v.overall_confidence = none)
    (l : List VClaim) (c : VClaim) (hc : c.status = none) :
    (calculate_hallucination_risk v).confidence = 50 ∧
    (calculate_hallucination_risk v).risk_level = "medium" ∧
    tallyStatuses (l ++ [c]) = bumpStatus (tallyStatuses l) "uncertain" ∧
    (tallyStatuses (l ++ [c])).uncertain = (tallyStatuses l).uncertain + 1 := by
  have htally : tallyStatuses (l ++ [c]) = bumpStatus (tallyStatuses l) "uncertain" := by
    simp [tallyStatuses, List.foldl_append, hc]
  refine ⟨?_, ?_, htally, ?_⟩
  · simp [calculate_hallucination_risk, hconf]
  · simp [calculate_hallucination_risk, hconf]
  · rw [htally]; simp [bumpStatus]

/-- Claim C10, witness: instantiated at a Verification with no
`overall_confidence` and a claim record with no `status`. -/
theorem risk_missing_defaults_witness :
    (calculate_hallucination_risk ⟨none, none⟩).confidence = 50 ∧
    (calculate_hallucination_risk ⟨none, none⟩).risk_level = "medium" ∧
    tallyStatuses ([] ++ [⟨[], none, "", []⟩]) = bumpStatus (tallyStatuses []) "uncertain" ∧
    (tallyStatuses ([] ++ [⟨[], none, "", []⟩])).uncertain = (tallyStatuses []).uncertain + 1 :=
  risk_missing_defaults ⟨none, none⟩ rfl [] ⟨[], none, "", []⟩ rfl

/-! ## Claim C5: deduplication lemmas -/

theorem dedupAux_sublist (l : List Source) :
    ∀ seen, (dedupAux seen l).Sublist l := by
  induction l with
  | nil => intro seen; simp [dedupAux]
  | cons x rest ih =>
    intro seen
    unfold dedupAux
    dsimp only
    split_ifs with hc
    · exact (ih _).cons₂ x
    · exact (ih _).cons x

theorem dedupAux_mem (l : List Source) :
    ∀ seen s, s ∈ dedupAux seen l → getUrl s ≠ "" ∧ getUrl s ∉ seen := by
  induction l with
  | nil => intro seen s h; simp [dedupAux] at h
  | cons x rest ih =>
    intro seen s h
    unfold dedupAux at h
    dsimp only at h
    split_ifs at h with hc
    · rcases List.mem_cons.mp h with rfl | hmem
      · exact hc
      · have hrec := ih _ s hmem
        exact ⟨hrec.1, fun h2 => hrec.2 (List.mem_cons_of_mem _ h2)⟩
    · exact ih _ s h

theorem dedupAux_pairwise (l : List Source) :
    ∀ seen, (dedupAux seen l).Pairwise (fun a b => getUrl a ≠ getUrl b) := by
  induction l with
  | nil => intro seen; simp [dedupAux]
  | cons x rest ih =>
    intro seen
    unfold dedupAux
    dsimp only
    split_ifs with hc
    · refine List.Pairwise.cons ?_ (ih _)
      intro b hb heq
      exact (dedupAux_mem rest _ b hb).2 (by rw [← heq]; exact List.mem_cons_self _ _)
    · exact ih _

theorem dedupAux_find (l : List Source) :
    ∀ seen s, s ∈ dedupAux seen l →
      l.find? (fun t => getUrl t == getUrl s) = some s := by
  induction l with
  | nil => intro seen s h; simp [dedupAux] at h
  | cons x rest ih =>
    intro seen s h
    unfold dedupAux at h
    dsimp only at h
    split_ifs at h with hc
    · rcases List.mem_cons.mp h with rfl | hmem
      · rw [List.find?_cons_of_pos _ (by simp)]
      · have hmem2 := dedupAux_mem rest _ s hmem
        have hne : getUrl s ≠ getUrl x := by
          intro heq
          exact hmem2.2 (by rw [← heq]; exact List.mem_cons_self _ _)
        rw [List.find?_cons_of_neg _ (by simpa using fun h2 => hne h2.symm)]
        exact ih _ s hmem
    · have hmem2 := dedupAux_mem rest _ s h
      have hcases : getUrl x = "" ∨ getUrl x ∈ seen := by
        by_cases h0 : getUrl x = ""
        · exact Or.inl h0
        · right; by_contra h2; exact hc ⟨h0, h2⟩
      rw [List.find?_cons_of_neg _ (by
        simp only [beq_iff_eq]
        intro heq
        rcases hcases with h0 | hseen
        · exact hmem2.1 (by rw [← heq]; exact h0)
        · exact hmem2.2 (by rw [← heq]; exact hseen))]
      exact ih _ s h

theorem dedupAux_covers (l : List Source) :
    ∀ seen u, u ≠ "" → u ∉ seen → (∃ s ∈ l, getUrl s = u) →
      ∃ t ∈ dedupAux seen l, getUrl t = u := by
  induction l with
  | nil => intro seen u _ _ hex; simp at hex
  | cons x rest ih =>
    intro seen u hu hseen hex
    unfold dedupAux
    dsimp only
    split_ifs with hc
    · by_cases hx : getUrl x = u
      · exact ⟨x, List.mem_cons_self _ _, hx⟩
      · rcases hex with ⟨s, hs, hsu⟩
        rcases List.mem_cons.mp hs with rfl | hsrest
        · exact absurd hsu hx
        · obtain ⟨t, ht, htu⟩ :=
            ih (getUrl x :: seen) u hu
              (by
                intro hmem
                rcases List.mem_cons.mp hmem with heq | h2
                · exact hx heq.symm
                · exact hseen h2)
              ⟨s, hsrest, hsu⟩
          exact ⟨t, List.mem_cons_of_mem _ ht, htu⟩
    · rcases hex with ⟨s, hs, hsu⟩
      rcases List.mem_cons.mp hs with rfl | hsrest
      · exact absurd ⟨by rw [hsu]; exact hu, by rw [hsu]; exact hseen⟩ hc
      · exact ih seen u hu hseen ⟨s, hsrest, hsu⟩

/-- Claim C5: `_deduplicate_sources` returns a subsequence of its input
(relative order preserved, entries taken from the input) in which every
entry has a non-empty url, no two entries share a url, each retained entry
is the first entry of the input bearing its url, and every non-empty url of
the input is represented; entries with an empty or missing url are dropped. -/
theorem deduplicate_sources_spec (sources : List Source) :
    (deduplicate_sources sources).Sublist sources ∧
    (∀ s ∈ deduplicate_sources sources, getUrl s ≠ "") ∧
    (deduplicate_sources sources).Pairwise (fun a b => getUrl a ≠ getUrl b) ∧
    (∀ s ∈ deduplicate_sources sources,
      sources.find? (fun t => getUrl t == getUrl s) = some s) ∧
    (∀ s ∈ sources, getUrl s ≠ "" →
      ∃ t ∈ deduplicate_sources sources, getUrl t = getUrl s) := by
  refine ⟨dedupAux_sublist sources [], ?_, dedupAux_pairwise sources [], ?_, ?_⟩
  · intro s hs; exact (dedupAux_mem sources [] s hs).1
  · intro s hs; exact dedupAux_find sources [] s hs
  · intro s hs hu; exact dedupAux_covers sources [] (getUrl s) hu (by simp) ⟨s, hs, rfl⟩

/-! ## Claim C3 -/

/-- Claim C3, counterexample: a verifier response that is valid JSON but not
the required structure — here a JSON array — does not trigger the fallback:
`json.loads` succeeds, so no `JSONDecodeError` is raised, and `verify_claims`
returns the raw parsed value as-is, which is not the confidence-50
single-uncertain-claim fallback Verification (it is not even an object). -/
theorem verify_claims_wrong_shape_cex :
    verify_claims [] (.ok (some (.nonObj "list"))) = .ok (.nonObj "list") ∧
    (ParsedJson.nonObj "list") ≠ .obj (create_fallback_verification []) :=
  ⟨rfl, by decide⟩

/-- Claim C3 (amended): `verify_claims` never raises past a parse failure,
but the fallback fires only on a JSON *decode* error: in that case it
returns a fallback Verification with overall confidence 50 and exactly one
claim, status `uncertain`, whose text is a (at most 200 character) leading
excerpt of the answer — followed by an ellipsis marker when the answer was
truncated — and whose reason states that the verification system encountered
an error. A response that decodes as valid JSON but lacks the required
structure is returned as-is, not replaced by the fallback. -/
theorem verify_claims_parse_fallback (answer : List Char) :
    (∃ v, verify_claims answer (.ok none) = .ok (.obj v) ∧
      v.overall_confidence = some 50 ∧
      ∃ c, v.claims = some [c] ∧ c.status = some "uncertain" ∧
        c.reason = "Verification system encountered an error" ∧
        ∃ excerpt : List Char, excerpt = answer.take excerpt.length ∧
          excerpt.length ≤ 200 ∧
          (c.text = excerpt ∨ c.text = excerpt ++ "...".toList)) ∧
    (∀ j : ParsedJson, verify_claims answer (.ok (some j)) = .ok j) := by
  refine ⟨?_, fun j => rfl⟩
  refine ⟨create_fallback_verification answer, rfl, rfl, ?_⟩
  refine ⟨_, rfl, rfl, rfl, ?_⟩
  by_cases h : answer.length > 200
  · refine ⟨answer.take 200, ?_, ?_, Or.inr ?_⟩
    · rw [List.length_take, Nat.min_eq_left (le_of_lt h)]
    · rw [List.length_take]; exact Nat.min_le_left _ _
    · simp [create_fallback_verification, h]
  · refine ⟨answer, ?_, ?_, Or.inl ?_⟩
    · rw [List.take_length]
    · omega
    · simp [create_fallback_verification, h]

/-! ## Claim C6 -/

/-- Claim C6: `SearchModule.search` soft-fails: on any transport or provider
error (either provider backend) it returns the empty list, and in the
engine's merge loop an errored query contributes nothing while leaving the
other queries' contributions unchanged. -/
theorem search_soft_fail :
    (∀ (e : String) (max_results : Nat),
      search (.ddg (.error e)) max_results = [] ∧
      search (.serp (.error e)) max_results = []) ∧
    (∀ (pre post : List (Except String (List Source))) (e : String),
      mergeSearchResults (pre ++ .error e :: post) = mergeSearchResults (pre ++ post)) := by
  refine ⟨fun e mr => ⟨rfl, rfl⟩, ?_⟩
  intro pre post e
  unfold mergeSearchResults
  rw [List.foldl_append, List.foldl_append, List.foldl_cons]

/-! ## Claim C9 -/

/-- Claim C9: an error of the answer-generation model call, or a transport
error (as opposed to an unparseable response) of the verification model
call, makes the pipeline abort with an error: neither `generate_and_verify`
nor `verify_existing_answer` produces a bundle in that case. -/
theorem pipeline_hard_errors :
    (∀ (question : List Char) (oracle : EngineOracle) (e : String),
      oracle.genAnswer = .error e →
      (generate_and_verify question oracle).toOption = none) ∧
    (∀ (question : List Char) (oracle : EngineOracle) (e : String),
      oracle.verifyResponse = .error e →
      (generate_and_verify question oracle).toOption = none) ∧
    (∀ (question answer : List Char) (oracle : EngineOracle) (e : String),
      oracle.verifyResponse = .error e →
      (verify_existing_answer question answer oracle).toOption = none) := by
  refine ⟨?_, ?_, ?_⟩
  · intro q oracle e h
    simp [generate_and_verify, generate_answer, h, Except.toOption]
  · intro q oracle e h
    cases hg : oracle.genAnswer with
    | error e2 => simp [generate_and_verify, generate_answer, hg, Except.toOption]
    | ok a => simp [generate_and_verify, generate_answer, verify_claims, hg, h, Except.toOption]
  · intro q a oracle e h
    simp [verify_existing_answer, verify_claims, h, Except.toOption]

/-- Claim C9, witness: a failed answer-model call (first conjunct of the
theorem) aborts a concrete pipeline run with no bundle. -/
theorem pipeline_hard_errors_witness :
    (generate_and_verify []
      { genAnswer := .error "auth", searchOutcomes := [], citations := [],
        verifyResponse := .ok none }).toOption = none :=
  pipeline_hard_errors.1 []
    { genAnswer := .error "auth", searchOutcomes := [], citations := [],
      verifyResponse := .ok none } "auth" rfl

/-! ## Claim C7 -/

theorem generate_search_queries_eq (question answer : List Char) :
    generate_search_queries question answer =
      [question, question ++ " 2024 2025".toList] := by
  unfold generate_search_queries
  dsimp only
  split_ifs <;> rfl

/-- Claim C7, counterexample: for the empty question (paired with the empty
answer) the first generated query is the raw question itself, i.e. the empty
string, so not every returned query is non-empty. -/
theorem generate_search_queries_cex :
    ([] : List Char) ∈ generate_search_queries [] [] := by
  decide

/-- Claim C7 (amended): `generate_search_queries` always returns exactly two
queries, the first being the raw question (so derived from it), it is a pure
function of its input (the same pair always yields the same list), and every
returned query is non-empty provided the question is non-empty; an empty
question makes the first query empty. -/
theorem generate_search_queries_spec (question answer : List Char) :
    (generate_search_queries question answer).length = 2 ∧
    (generate_search_queries question answer).head? = some question ∧
    (question ≠ [] → ([] : List Char) ∉ generate_search_queries question answer) := by
  rw [generate_search_queries_eq]
  refine ⟨rfl, rfl, ?_⟩
  intro hq hmem
  rcases List.mem_cons.mp hmem with h1 | h2
  · exact hq h1.symm
  · rcases List.mem_cons.mp h2 with h3 | h4
    · have h5 := h3.symm
      rw [List.append_eq_nil] at h5
      exact absurd h5.2 (by decide)
    · simp at h4

/-- Claim C7, witness: for a concrete non-empty question no empty query is
returned. -/
theorem generate_search_queries_spec_witness :
    ([] : List Char) ∉ generate_search_queries "hi".toList "ans".toList :=
  (generate_search_queries_spec "hi".toList "ans".toList).2.2 (by decide)

/-! ## Claim C2 -/

theorem convertCitationsAux_get? (citations : List String) :
    ∀ i j, (convertCitationsAux i citations).get? j =
      (citations.get? j).map (fun url =>
        { title := "Source " ++ toString (i + j), snippet := "", url := some url }) := by
  induction citations with
  | nil => intro i j; simp [convertCitationsAux]
  | cons u rest ih =>
    intro i j
    cases j with
    | zero => simp [convertCitationsAux]
    | succ k =>
      simp only [convertCitationsAux, List.get?_cons_succ]
      rw [ih (i + 1) k]
      have harith : i + 1 + k = i + (k + 1) := by omega
      rw [harith]

/-- Claim C2, counterexample: one search query returns a single result with
an empty url, so the merged list is non-empty and the citation fallback is
not consulted; deduplication then drops that entry, leaving the bundle with
no sources even though a retained citation exists and the merged,
deduplicated set is empty — contradicting the claim that the fallback fires
whenever the merged, deduplicated set is empty. -/
theorem citation_fallback_cex :
    deduplicate_sources (mergeSearchResults [.ok [⟨"t", "s", some ""⟩]]) = [] ∧
    convert_citations_to_sources ["https://example.com"] ≠ [] ∧
    computeSources [.ok [⟨"t", "s", some ""⟩]] ["https://example.com"] = [] :=
  ⟨rfl, by decide, rfl⟩

/-- Claim C2 (amended): in both engine pipelines (whose bundles take their
sources from the shared aggregation step), whenever the merged search-result
list is empty BEFORE deduplication, the bundle's sources are exactly the
deduplicated converted citations, each retained citation URL becoming a
source with synthesized title `Source i` (1-based) and empty snippet. A
non-empty merged list that deduplicates to empty does not trigger the
fallback. -/
theorem citation_fallback_on_empty_merge
    (outcomes : List (Except String (List Source))) (citations : List String)
    (h : mergeSearchResults outcomes = []) :
    computeSources outcomes citations =
      deduplicate_sources (convert_citations_to_sources citations) ∧
    (∀ j, (convert_citations_to_sources citations).get? j =
      (citations.get? j).map (fun url =>
        { title := "Source " ++ toString (j + 1), snippet := "", url := some url })) ∧
    (∀ (question : List Char) (oracle : EngineOracle) (b : Bundle),
      generate_and_verify question oracle = .ok b →
      b.sources = computeSources oracle.searchOutcomes oracle.citations) ∧
    (∀ (question answer : List Char) (oracle : EngineOracle) (b : Bundle),
      verify_existing_answer question answer oracle = .ok b →
      b.sources = computeSources oracle.searchOutcomes oracle.citations) := by
  refine ⟨?_, ?_, ?_, ?_⟩
  · unfold computeSources
    rw [h]
    dsimp only
    by_cases hc : convert_citations_to_sources citations = []
    · simp [hc]
    · simp [hc]
  · intro j
    unfold convert_citations_to_sources
    rw [convertCitationsAux_get?]
    have harith : 1 + j = j + 1 := by omega
    rw [harith]
  · intro q oracle b hb
    unfold generate_and_verify at hb
    split at hb
    · simp at hb
    · split at hb
      · simp at hb
      · split at hb
        · simp at hb
        · injection hb with h2
          rw [← h2]
  · intro q a oracle b hb
    unfold verify_existing_answer at hb
    split at hb
    · simp at hb
    · injection hb with h2
      rw [← h2]

/-- Claim C2, witness: with no search outcomes at all and one retained
citation, the bundle's sources are the deduplicated converted citations. -/
theorem citation_fallback_on_empty_merge_witness :
    computeSources [] ["https://example.com"] =
      deduplicate_sources (convert_citations_to_sources ["https://example.com"]) :=
  (citation_fallback_on_empty_merge [] ["https://example.com"] rfl).1
